import Mathlib

/-!
Verification of the bike-sharing dashboard pipeline
(src/dashboard/dashboard.py) against its specification.

The file shallowly embeds the transformation-and-aggregation pipeline:

* schema-normalized records become the structure `Row` (dates are integer
  day ordinals, derived label columns are Option-valued: a pandas NaN label
  is `none`);
* the unit denormalization loop (lines 35-38) becomes `denormalizeRow` /
  `denormalize`;
* the label maps (lines 41-47) become `season_map`, `weather_map`,
  `mapLabels`;
* the time bucketing (lines 50-61) becomes `categorize_time`, `bucketRow`
  and the declared category order `time_category_order`;
* the date-range filter (lines 86-90) becomes `rangeFilter`;
* the grouped aggregations (lines 158 and 179-182) become `time_stats` and
  `daily_user_stats` (pandas groupby on an ordered categorical with the
  default observed=False lists every declared category in declared order,
  with NaN mean for an empty group, modelled by `meanOpt`);
* the module-level name environment and `load_data` (lines 1-16) become
  `scriptGlobals`, `Env` and `load_data`, with Python name resolution
  modelled by `lookupGlobal`.
-/

/-- A record of the bike-sharing tables after schema normalization
(dashboard.py lines 19-28).  One structure serves both the daily and the
hourly table; the daily table simply never reads the hour-specific fields.
Numeric measurement columns are rationals, counts are integers, the date is
an integer day ordinal, and derived columns start out absent (`none`). -/
structure Row where
  date : Int
  year : Int
  month : Int
  hour : Int
  is_holiday : Bool
  day_of_week : Int
  is_workingday : Bool
  season : Int
  weather_condition : Int
  temperature_celsius : Rat
  feels_like_temperature_celsius : Rat
  humidity_percentage : Rat
  windspeed_kmh : Rat
  casual_users : Int
  registered_users : Int
  total_users : Int
  season_label : Option String := none
  weather_label : Option String := none
  time_category : Option String := none
  day_name : Option String := none
deriving DecidableEq

/-- Lines 35-38: the denormalization loop body.  The source multiplies
exactly three columns: temperature by 41, humidity by 100, windspeed by 67.
No other column is touched (in particular feels_like_temperature_celsius is
not rescaled). -/
def denormalizeRow (r : Row) : Row :=
  { r with
      temperature_celsius := r.temperature_celsius * 41
      humidity_percentage := r.humidity_percentage * 100
      windspeed_kmh := r.windspeed_kmh * 67 }

/-- Lines 35-38 applied to a whole table (the loop runs the same body over
df_Day and df_Hour; pandas column arithmetic is row-wise, i.e. a map). -/
def denormalize (df : List Row) : List Row := df.map denormalizeRow

/-- Line 41: season_map = {1: Spring, 2: Summer, 3: Fall, 4: Winter}.
pandas Series.map yields NaN for a key absent from the dict, modelled as
`none`. -/
def season_map (code : Int) : Option String :=
  if code = 1 then some "Spring"
  else if code = 2 then some "Summer"
  else if code = 3 then some "Fall"
  else if code = 4 then some "Winter"
  else none

/-- Line 42: weather_map with codes 1-4; absent keys give NaN (`none`). -/
def weather_map (code : Int) : Option String :=
  if code = 1 then some "Clear/Partly Cloudy"
  else if code = 2 then some "Mist/Cloudy"
  else if code = 3 then some "Light Snow/Rain"
  else if code = 4 then some "Severe Weather"
  else none

/-- Lines 44-47: attach season_label and weather_label to a row. -/
def mapLabels (r : Row) : Row :=
  { r with
      season_label := season_map r.season
      weather_label := weather_map r.weather_condition }

/-- Lines 44-47 applied to a whole table. -/
def mapLabelsTable (df : List Row) : List Row := df.map mapLabels

/-- Lines 50-54: categorize_time.  A faithful transcription of the
if/elif/elif/else chain; note the final branch is a bare else, so every
hour outside the first three intervals (including any hour below 0 or
at or above 24) receives the string Evening. -/
def categorize_time (hour : Int) : String :=
  if 0 ≤ hour ∧ hour < 6 then "Night"
  else if 6 ≤ hour ∧ hour < 12 then "Morning"
  else if 12 ≤ hour ∧ hour < 18 then "Afternoon"
  else "Evening"

/-- Line 56: attach the time_category column to a row of the hourly table. -/
def bucketRow (r : Row) : Row :=
  { r with time_category := some (categorize_time r.hour) }

/-- Line 56 applied to the whole hourly table. -/
def bucketTable (df : List Row) : List Row := df.map bucketRow

/-- Lines 59-61: the declared (ordered categorical) display order of the
time_category column. -/
def time_category_order : List String :=
  ["Morning", "Afternoon", "Evening", "Night"]

/-- Lines 86-90: the date-range filter.  Boolean-mask selection keeps the
rows whose date lies between start_date and end_date, both comparisons
inclusive, preserving the original row order. -/
def rangeFilter (df : List Row) (start_date end_date : Int) : List Row :=
  df.filter (fun r => decide (start_date ≤ r.date ∧ r.date ≤ end_date))

/-- pandas mean of a column restricted to a group: NaN (here `none`) for an
empty group, otherwise the sum divided by the length. -/
def meanOpt (xs : List Rat) : Option Rat :=
  if xs.length = 0 then none else some (xs.sum / (xs.length : Rat))

/-- Line 158: groupby on the ordered categorical time_category column with
the pandas default observed=False.  The result lists every declared
category, in the declared order, paired with the mean of total_users over
that category's rows (NaN, i.e. `none`, when the group is empty). -/
def time_stats (df : List Row) : List (String × Option Rat) :=
  time_category_order.map (fun c =>
    (c, meanOpt ((df.filter
      (fun r => decide (r.time_category = some c))).map
      (fun r => (r.total_users : Rat)))))

/-- Line 179: the fixed Monday-first day order used to reindex. -/
def day_order : List String :=
  ["Monday", "Tuesday", "Wednesday", "Thursday", "Friday", "Saturday",
   "Sunday"]

/-- Line 180: the English weekday name of a date.  Dates are modelled as
day ordinals counted from 1970-01-01, which was a Thursday, so the name is
the ordinal modulo 7 read off a Thursday-anchored week. -/
def dayNameOf (d : Int) : String :=
  ["Thursday", "Friday", "Saturday", "Sunday", "Monday", "Tuesday",
   "Wednesday"].getD (d.emod 7).toNat "Thursday"

/-- Line 180: main_df_Day receives a day_name column derived from its date
column.  pandas boolean-mask indexing (lines 86-87) returns a copy, so this
assignment populates the derived view only; it is modelled as a map
producing a new table. -/
def addDayName (df : List Row) : List Row :=
  df.map (fun r => { r with day_name := some (dayNameOf r.date) })

/-- Line 182: groupby day_name, mean of casual_users and registered_users,
then reindex(day_order).  Reindexing selects exactly the seven day names in
the fixed Monday-first order; a name with no group yields NaN means. -/
def daily_user_stats (df : List Row) :
    List (String × Option Rat × Option Rat) :=
  day_order.map (fun d =>
    (d,
     meanOpt ((df.filter (fun r => decide (r.day_name = some d))).map
       (fun r => (r.casual_users : Rat))),
     meanOpt ((df.filter (fun r => decide (r.day_name = some d))).map
       (fun r => (r.registered_users : Rat)))))

/-- Lines 27-61: the load-and-transform step applied to the two raw tables
(rename is implicit in the semantic field names of `Row`): denormalize and
label both tables, then bucket the hourly one. -/
def transformTables (dfDay dfHour : List Row) : List Row × List Row :=
  (mapLabelsTable (denormalize dfDay),
   bucketTable (mapLabelsTable (denormalize dfHour)))

/-- Python-level errors the embedded script can surface. -/
inductive PyError where
  | nameError (name : String)
  | fileNotFound (path : String)
deriving DecidableEq

/-- The environment a run of load_data sees: the module-level global names
in scope, and the readable input files (path to parsed table). -/
structure Env where
  globals : List String
  files : String → Option (List Row)

/-- The names bound at module level by the four imports of dashboard.py
lines 1-4 (pandas as pd, matplotlib.pyplot as plt, seaborn as sns,
streamlit as st) plus the function being defined.  The os module is
never imported anywhere in the file. -/
def scriptGlobals : List String := ["pd", "plt", "sns", "st", "load_data"]

/-- Python global-name resolution: a name not bound in the globals raises
NameError. -/
def lookupGlobal (globals : List String) (n : String) : Except PyError String :=
  if globals.contains n then Except.ok n else Except.error (PyError.nameError n)

/-- Reading one input table from the environment. -/
def readTable (env : Env) (path : String) : Except PyError (List Row) :=
  match env.files path with
  | some t => Except.ok t
  | none => Except.error (PyError.fileNotFound path)

/-- Lines 10-63: load_data.  Its first statement (line 11,
current_dir = os.path.dirname(os.path.abspath(__file__))) begins by
resolving the global name os; only then are day.csv and hour.csv read and
the transform applied. -/
def load_data (env : Env) : Except PyError (List Row × List Row) := do
  let _os ← lookupGlobal env.globals "os"
  let rawDay ← readTable env "day.csv"
  let rawHour ← readTable env "hour.csv"
  Except.ok (transformTables rawDay rawHour)

/-- The canonical tables produced once by the load step (line 65). -/
structure Canonical where
  df_Day : List Row
  df_Hour : List Row
deriving DecidableEq

/-- Everything one user interaction derives from the canonical tables:
the two filtered views (lines 86-90), the day_name-augmented daily view
(line 180), the KPI sum (line 99) and the grouped aggregations
(lines 158 and 182). -/
structure DerivedViews where
  main_df_Day : List Row
  main_df_Hour : List Row
  total_orders : Int
  time_stats_view : List (String × Option Rat)
  daily_user_view : List (String × Option Rat × Option Rat)
deriving DecidableEq

/-- One user interaction on a selected date range: derive the filtered
views and aggregations from the canonical tables.  Pandas boolean-mask
indexing returns copies, so the day_name assignment of line 180 lands on
the derived view; the canonical tables are only read.  The function
returns the canonical state alongside the derived views to make that frame
condition explicit. -/
def dashboardStep (c : Canonical) (s e : Int) : Canonical × DerivedViews :=
  let mDay := rangeFilter c.df_Day s e
  let mHour := rangeFilter c.df_Hour s e
  let mDayNamed := addDayName mDay
  (c,
   { main_df_Day := mDayNamed
     main_df_Hour := mHour
     total_orders := (mDay.map (fun r => r.total_users)).sum
     time_stats_view := time_stats mHour
     daily_user_view := daily_user_stats mDayNamed })

/-- The canonical state after a whole session: any sequence of date-range
interactions, threaded through `dashboardStep`. -/
def runInteractions (c : Canonical) (ranges : List (Int × Int)) : Canonical :=
  ranges.foldl (fun acc p => (dashboardStep acc p.1 p.2).1) c

/-- A generic concrete row used by the concrete-input theorems. -/
def exRow : Row :=
  { date := 0, year := 0, month := 1, hour := 0, is_holiday := false,
    day_of_week := 6, is_workingday := true, season := 1,
    weather_condition := 1, temperature_celsius := 1,
    feels_like_temperature_celsius := 2, humidity_percentage := 3,
    windspeed_kmh := 4, casual_users := 10, registered_users := 20,
    total_users := 30 }

/-- A concrete row carrying out-of-range season and weather codes. -/
def exRowBadCodes : Row := { exRow with season := 5, weather_condition := 0 }

/-- A small concrete daily table with dates 1, 3, 3, 4. -/
def exDf : List Row :=
  [{ exRow with date := 1 }, { exRow with date := 3, casual_users := 4 },
   { exRow with date := 3 }, { exRow with date := 4 }]

/-- A small concrete hourly table, bucketed and with day names attached. -/
def exDfHour : List Row :=
  bucketTable [{ exRow with hour := 8 }, { exRow with hour := 14 }]

/-- A small concrete daily table with day_name attached. -/
def exDfDay : List Row := addDayName exDf

/-- Helper: the pandas mean is invariant under permutation of the rows it
averages. -/
theorem meanOpt_perm {xs ys : List Rat} (hp : xs.Perm ys) :
    meanOpt xs = meanOpt ys := by
  simp [meanOpt, hp.length_eq, hp.sum_eq]

/-- C1, counterexample: the claim says the denormalizer multiplies
feels_like_temperature_celsius by 41, but the loop of lines 35-38 never
touches that column: on a row whose feels-like value is 2 the output
still holds 2, not 82. -/
theorem c1_claim_counterexample :
    ¬ ((denormalizeRow exRow).feels_like_temperature_celsius =
        exRow.feels_like_temperature_celsius * 41) := by
  norm_num [denormalizeRow, exRow]

/-- C1, amended: the Unit Denormalizer rescales exactly three fields,
multiplying temperature_celsius by 41, humidity_percentage by 100 and
windspeed_kmh by 67, for every row of a table (the same loop body runs
over both the daily and the hourly table), and leaves every other field -
including feels_like_temperature_celsius - unchanged. -/
theorem c1_denormalizer_amended (r : Row) (df : List Row) (i : Nat) :
    (denormalizeRow r).temperature_celsius = r.temperature_celsius * 41 ∧
    (denormalizeRow r).humidity_percentage = r.humidity_percentage * 100 ∧
    (denormalizeRow r).windspeed_kmh = r.windspeed_kmh * 67 ∧
    (denormalizeRow r).feels_like_temperature_celsius =
      r.feels_like_temperature_celsius ∧
    (denormalizeRow r).date = r.date ∧
    (denormalizeRow r).year = r.year ∧
    (denormalizeRow r).month = r.month ∧
    (denormalizeRow r).hour = r.hour ∧
    (denormalizeRow r).is_holiday = r.is_holiday ∧
    (denormalizeRow r).day_of_week = r.day_of_week ∧
    (denormalizeRow r).is_workingday = r.is_workingday ∧
    (denormalizeRow r).season = r.season ∧
    (denormalizeRow r).weather_condition = r.weather_condition ∧
    (denormalizeRow r).casual_users = r.casual_users ∧
    (denormalizeRow r).registered_users = r.registered_users ∧
    (denormalizeRow r).total_users = r.total_users ∧
    (denormalizeRow r).season_label = r.season_label ∧
    (denormalizeRow r).weather_label = r.weather_label ∧
    (denormalizeRow r).time_category = r.time_category ∧
    (denormalizeRow r).day_name = r.day_name ∧
    (denormalize df)[i]? = df[i]?.map denormalizeRow := by
  refine ⟨rfl, rfl, rfl, rfl, rfl, rfl, rfl, rfl, rfl, rfl, rfl, rfl, rfl,
    rfl, rfl, rfl, rfl, rfl, rfl, rfl, ?_⟩
  exact List.getElem?_map denormalizeRow df i

/-- C2, counterexample: the claim says an hour outside 0-23 makes the Time
Bucketer fail with a RangeError, but categorize_time is a total function
whose bare else branch assigns Evening to hour 24. -/
theorem c2_claim_counterexample : categorize_time 24 = "Evening" := by
  decide

/-- C2, amended: for every hour outside 0-23 the Time Bucketer does not
fail at all; the bare else branch of lines 51-54 silently assigns the
category Evening to it. -/
theorem c2_bucketer_amended (h : Int) (hout : h < 0 ∨ 24 ≤ h) :
    categorize_time h = "Evening" := by
  unfold categorize_time
  split_ifs <;> first | rfl | omega

/-- C2, witness for the amended statement at the concrete hour -1. -/
theorem c2_bucketer_amended_witness : categorize_time (-1) = "Evening" :=
  c2_bucketer_amended (-1) (by decide)

/-- C3, counterexample: the claim says a filter request with
start_date > end_date fails with an InvalidRangeError, but the boolean-mask
selection of lines 86-90 cannot raise: on the concrete table exDf with
start 5 and end 3 it simply returns the empty table. -/
theorem c3_claim_counterexample : rangeFilter exDf 5 3 = [] := by
  decide

/-- C3, amended: for every table and every pair of dates with
start_date > end_date, the Range Filter does not fail; the conjunction of
the two inclusive comparisons is unsatisfiable, so it returns the empty
table. -/
theorem c3_range_filter_amended (df : List Row) (s e : Int) (hlt : e < s) :
    rangeFilter df s e = [] := by
  refine List.filter_eq_nil_iff.2 (fun r _ => ?_)
  simp only [decide_eq_true_eq]
  omega

/-- C3, witness for the amended statement on a concrete table and range. -/
theorem c3_range_filter_amended_witness : rangeFilter exDf 7 2 = [] :=
  c3_range_filter_amended exDf 7 2 (by decide)

/-- C4, counterexample: the claim says a season code outside {1,2,3,4}
receives an explicit unknown sentinel label, but Series.map with the dict
of line 41 yields a missing value: on a row with season code 5 the
season_label is none, not the string unknown. -/
theorem c4_claim_counterexample :
    (mapLabels exRowBadCodes).season_label = none ∧
    (mapLabels exRowBadCodes).season_label ≠ some "unknown" := by
  decide

/-- C4, amended: the Label Mapper is total over all integer codes (it never
crashes), and for every row whose season or weather_condition code lies
outside {1,2,3,4} it attaches a missing label (none, pandas NaN) rather
than an explicit unknown sentinel string. -/
theorem c4_label_mapper_amended (r : Row) :
    (¬ (r.season = 1 ∨ r.season = 2 ∨ r.season = 3 ∨ r.season = 4) →
      (mapLabels r).season_label = none) ∧
    (¬ (r.weather_condition = 1 ∨ r.weather_condition = 2 ∨
        r.weather_condition = 3 ∨ r.weather_condition = 4) →
      (mapLabels r).weather_label = none) ∧
    (mapLabels r).season_label = season_map r.season ∧
    (mapLabels r).weather_label = weather_map r.weather_condition := by
  refine ⟨fun hs => ?_, fun hw => ?_, rfl, rfl⟩
  · simp only [mapLabels, season_map]
    split_ifs with h1 h2 h3 h4 <;> first | rfl | exact absurd (by omega) hs
  · simp only [mapLabels, weather_map]
    split_ifs with h1 h2 h3 h4 <;> first | rfl | exact absurd (by omega) hw

/-- C4, witness for the amended statement at the concrete bad-code row. -/
theorem c4_label_mapper_amended_witness :
    (mapLabels exRowBadCodes).weather_label = none :=
  (c4_label_mapper_amended exRowBadCodes).2.1 (by decide)

/-- C5 (confirmed): for every table and every valid pair
start_date ≤ end_date, the Range Filter returns exactly the subsequence of
rows whose date lies between the bounds, inclusive on both ends; with
start = end = D it returns exactly the rows whose date equals D, and a
range disjoint from every row's date yields the empty table (no error). -/
theorem c5_range_filter_inclusive (df : List Row) (s e D : Int)
    (hse : s ≤ e) :
    (rangeFilter df s e).Sublist df ∧
    (∀ r : Row, r ∈ rangeFilter df s e ↔
      r ∈ df ∧ s ≤ r.date ∧ r.date ≤ e) ∧
    rangeFilter df D D = df.filter (fun r => decide (r.date = D)) ∧
    ((∀ r ∈ df, r.date < s ∨ e < r.date) → rangeFilter df s e = []) := by
  refine ⟨List.filter_sublist df, ?_, ?_, ?_⟩
  · intro r
    simp [rangeFilter, List.mem_filter]
  · refine List.filter_congr (fun r _ => ?_)
    exact decide_eq_decide.2 (by omega)
  · intro hall
    refine List.filter_eq_nil_iff.2 (fun r hr => ?_)
    have := hall r hr
    simp only [decide_eq_true_eq]
    omega

/-- C5, witness: on the concrete table exDf with start = end = 3, the
filter returns exactly the rows dated 3. -/
theorem c5_range_filter_inclusive_witness :
    rangeFilter exDf 3 3 = exDf.filter (fun r => decide (r.date = 3)) :=
  (c5_range_filter_inclusive exDf 0 5 3 (by decide)).2.2.1

/-- C6 (confirmed): over the contract domain 0-23 the Time Bucketer
assigns exactly one of the four categories with the half-open boundaries
of lines 51-54: hours in [0,6) get Night, [6,12) Morning, [12,18)
Afternoon, [18,24) Evening; in particular hour 6 maps to Morning, 11 to
Morning, 12 to Afternoon, 23 to Evening and 0 to Night. -/
theorem c6_time_bucketer_boundaries (h : Int) (h0 : 0 ≤ h) (h24 : h < 24) :
    (h < 6 → categorize_time h = "Night") ∧
    (6 ≤ h → h < 12 → categorize_time h = "Morning") ∧
    (12 ≤ h → h < 18 → categorize_time h = "Afternoon") ∧
    (18 ≤ h → categorize_time h = "Evening") ∧
    (categorize_time h = "Night" ∨ categorize_time h = "Morning" ∨
     categorize_time h = "Afternoon" ∨ categorize_time h = "Evening") ∧
    categorize_time 6 = "Morning" ∧
    categorize_time 11 = "Morning" ∧
    categorize_time 12 = "Afternoon" ∧
    categorize_time 23 = "Evening" ∧
    categorize_time 0 = "Night" := by
  refine ⟨?_, ?_, ?_, ?_, ?_, by decide, by decide, by decide, by decide,
    by decide⟩ <;>
  · unfold categorize_time
    intros
    split_ifs <;> first | rfl | omega | simp

/-- C6, witness at the concrete hour 11. -/
theorem c6_time_bucketer_boundaries_witness : categorize_time 11 = "Morning" :=
  (c6_time_bucketer_boundaries 11 (by decide) (by decide)).2.1
    (by decide) (by decide)

/-- C7 (confirmed): the time_category aggregation of line 158 lists its
groups exactly in the declared display order Morning, Afternoon, Evening,
Night; the grouped means are invariant under any permutation of the input
rows; and a declared category with no rows still appears, paired with the
explicit undefined mean none, rather than being dropped. -/
theorem c7_time_category_grouping (df df2 : List Row) (hp : df.Perm df2) :
    (time_stats df).map Prod.fst = time_category_order ∧
    time_stats df = time_stats df2 ∧
    (∀ c ∈ time_category_order,
      (∀ r ∈ df, r.time_category ≠ some c) →
        (c, (none : Option Rat)) ∈ time_stats df) ∧
    (time_stats df).length = time_category_order.length := by
  refine ⟨?_, ?_, ?_, by simp [time_stats]⟩
  · rw [time_stats, List.map_map]
    exact (List.map_congr_left (fun c _ => rfl)).trans
      (List.map_id time_category_order)
  · unfold time_stats
    refine List.map_congr_left (fun c _ => ?_)
    have hfil := hp.filter (fun r => decide (r.time_category = some c))
    exact congrArg (fun m => (c, m))
      (meanOpt_perm (hfil.map (fun r => (r.total_users : Rat))))
  · intro c hc hnone
    have hfil : df.filter (fun r => decide (r.time_category = some c)) = [] :=
      List.filter_eq_nil_iff.2 (fun r hr => by simp [hnone r hr])
    refine List.mem_map.2 ⟨c, hc, ?_⟩
    rw [hfil]
    rfl

/-- C7, witness: on the concrete hourly table exDfHour the grouped result
keeps the declared category order. -/
theorem c7_time_category_grouping_witness :
    (time_stats exDfHour).map Prod.fst = time_category_order :=
  (c7_time_category_grouping exDfHour exDfHour (List.Perm.refl exDfHour)).1

/-- C8 (confirmed): the day-of-week aggregation of lines 179-182 computes
the mean casual_users and mean registered_users per day name and returns
one entry per day in the fixed Monday-first order; the result is invariant
under any permutation of the input rows. -/
theorem c8_day_of_week_grouping (df df2 : List Row) (hp : df.Perm df2) :
    (daily_user_stats df).map Prod.fst = day_order ∧
    daily_user_stats df = daily_user_stats df2 ∧
    (∀ d ∈ day_order,
      (d,
       meanOpt ((df.filter (fun r => decide (r.day_name = some d))).map
         (fun r => (r.casual_users : Rat))),
       meanOpt ((df.filter (fun r => decide (r.day_name = some d))).map
         (fun r => (r.registered_users : Rat)))) ∈ daily_user_stats df) ∧
    (daily_user_stats df).length = day_order.length := by
  refine ⟨?_, ?_, ?_, by simp [daily_user_stats]⟩
  · rw [daily_user_stats, List.map_map]
    exact (List.map_congr_left (fun d _ => rfl)).trans
      (List.map_id day_order)
  · unfold daily_user_stats
    refine List.map_congr_left (fun d _ => ?_)
    have hfil := hp.filter (fun r => decide (r.day_name = some d))
    rw [meanOpt_perm (hfil.map (fun r => (r.casual_users : Rat))),
        meanOpt_perm (hfil.map (fun r => (r.registered_users : Rat)))]
  · intro d hd
    exact List.mem_map.2 ⟨d, hd, rfl⟩

/-- C8, witness: on the concrete daily table exDfDay the grouped result is
in the fixed Monday-first order. -/
theorem c8_day_of_week_grouping_witness :
    (daily_user_stats exDfDay).map Prod.fst = day_order :=
  (c8_day_of_week_grouping exDfDay exDfDay (List.Perm.refl exDfDay)).1

/-- C9 (confirmed): the canonical tables are never mutated after the load
step.  Every per-interaction operation - range filtering (lines 86-90),
the day_name derivation on the filtered copy (line 180, pandas boolean-mask
indexing returns a copy, so the assignment cannot reach df_Day), and the
grouped aggregations (lines 99, 158, 182) - constructs a new derived view,
and after any sequence of date-range interactions the canonical state
compares equal to what the load step produced. -/
theorem c9_canonical_immutable (c : Canonical) (ranges : List (Int × Int)) :
    runInteractions c ranges = c := by
  induction ranges generalizing c with
  | nil => rfl
  | cons p ps ih => exact ih c

/-- C10 (confirmed): for every set of input files, load_data fails with
NameError on the name os: line 11 resolves the global os before either
csv file is read, and lines 1-4 never bind the name os.  The result is the same
error whatever the files contain, so the load step never completes and
never depends on any input. -/
theorem c10_load_data_name_error (files : String → Option (List Row)) :
    load_data { globals := scriptGlobals, files := files } =
      Except.error (PyError.nameError "os") := by
  rfl
